import Mathlib

/-!
Verification development for the photo timestamp printer
(`photo_time_printer.py`).  The embedding below models, from the source:

* the three-tier datetime resolver `DateTimeExtractor._get_image_datetime`
  (Exif metadata, then filesystem creation time, then filename inference);
* the background batch extractor `DateTimeExtractor.run` together with the
  restart logic of `PhotoTimestampPrinterApp._process_selected_files`;
* the annotation pipeline shared by `_update_preview` and `_print_action`
  (color-mode conversion, text drawing, QImage buffer layout);
* the print loop of `_print_action` (per-photo scaling, centering, page
  breaks, and its exception structure).
-/

namespace PhotoTimePrinter

/-- Gregorian leap-year rule, as enforced by Python's `datetime` validation. -/
def isLeapYear (y : Nat) : Bool :=
  (y % 4 == 0 && y % 100 != 0) || y % 400 == 0

/-- Days in a month, as enforced by the `datetime` constructor. -/
def daysInMonth (y m : Nat) : Nat :=
  if m == 2 then (if isLeapYear y then 29 else 28)
  else if m == 4 || m == 6 || m == 9 || m == 11 then 30
  else 31

/-- A calendar instant as carried by a Python `datetime` value (to second
precision; sub-second parts never occur in the modelled code paths). -/
structure DateTime where
  year : Nat
  month : Nat
  day : Nat
  hour : Nat
  minute : Nat
  second : Nat
deriving DecidableEq

/-- The range validation performed by the `datetime` constructor
(`MINYEAR = 1`, `MAXYEAR = 9999`, calendar day, 24h clock, seconds 0-59). -/
def validDateTime (dt : DateTime) : Bool :=
  decide (1 ≤ dt.year) && decide (dt.year ≤ 9999) &&
  decide (1 ≤ dt.month) && decide (dt.month ≤ 12) &&
  decide (1 ≤ dt.day) && decide (dt.day ≤ daysInMonth dt.year dt.month) &&
  decide (dt.hour ≤ 23) && decide (dt.minute ≤ 59) && decide (dt.second ≤ 59)

/-- Numeric value of a decimal digit character. -/
def digitVal (c : Char) : Nat := c.toNat - 48

/-- Value of a list of decimal digit characters. -/
def natOfDigits (cs : List Char) : Nat :=
  cs.foldl (fun a c => a * 10 + digitVal c) 0

/-- Zero-pad to two decimal places (`%m`, `%d`, `%H`, `%M` in `strftime`). -/
def pad2 (n : Nat) : String := if n < 10 then "0" ++ toString n else toString n

/-- Zero-pad to four decimal places (`%Y` in `strftime`). -/
def pad4 (n : Nat) : String :=
  if n < 10 then "000" ++ toString n
  else if n < 100 then "00" ++ toString n
  else if n < 1000 then "0" ++ toString n
  else toString n

/-- `datetime.strftime('%Y/%m/%d %H:%M')`: the display format produced by
every successful tier of `_get_image_datetime`. -/
def formatTimestamp (dt : DateTime) : String :=
  pad4 dt.year ++ "/" ++ pad2 dt.month ++ "/" ++ pad2 dt.day ++ " " ++
    pad2 dt.hour ++ ":" ++ pad2 dt.minute

/-- Split off the leading run of decimal digits. -/
def span (cs : List Char) : List Char × List Char :=
  (cs.takeWhile Char.isDigit, cs.dropWhile Char.isDigit)

/-- Digit run accepted for `%m` by `strptime` followed by a literal
separator: one digit `1-9` or two digits `01-12`. -/
def monthRun (cs : List Char) : Bool :=
  (cs.length == 1 && decide (1 ≤ natOfDigits cs)) ||
  (cs.length == 2 && decide (1 ≤ natOfDigits cs) && decide (natOfDigits cs ≤ 12))

/-- Digit run accepted for `%d`: one digit `1-9` or two digits `01-31`. -/
def dayRun (cs : List Char) : Bool :=
  (cs.length == 1 && decide (1 ≤ natOfDigits cs)) ||
  (cs.length == 2 && decide (1 ≤ natOfDigits cs) && decide (natOfDigits cs ≤ 31))

/-- Digit run accepted for `%H`: one digit or two digits `00-23`. -/
def hourRun (cs : List Char) : Bool :=
  cs.length == 1 || (cs.length == 2 && decide (natOfDigits cs ≤ 23))

/-- Digit run accepted for `%M`: one digit or two digits `00-59`. -/
def minuteRun (cs : List Char) : Bool :=
  cs.length == 1 || (cs.length == 2 && decide (natOfDigits cs ≤ 59))

/-- Digit run accepted for `%S`: one digit or two digits `00-61` (the
leap-second forms `60`/`61` pass the regex but are then rejected by the
`datetime` constructor). -/
def secondRun (cs : List Char) : Bool :=
  cs.length == 1 || (cs.length == 2 && decide (natOfDigits cs ≤ 61))

/-- `datetime.strptime(value, '%Y:%m:%d %H:%M:%S')` on an arbitrary string:
`%Y` takes exactly four digits, the separators are literal (whitespace in
the format matches one or more whitespace characters), the whole string
must be consumed, and the resulting field values must satisfy `datetime`
construction. -/
def parseExifDT (s : String) : Option DateTime :=
  let (yr, r1) := span s.data
  if yr.length != 4 then none
  else match r1 with
  | ':' :: r2 =>
    let (mo, r3) := span r2
    if !monthRun mo then none
    else match r3 with
    | ':' :: r4 =>
      let (dd, r5) := span r4
      if !dayRun dd then none
      else
        let ws := r5.takeWhile Char.isWhitespace
        let r6 := r5.dropWhile Char.isWhitespace
        if ws.isEmpty then none
        else
          let (hh, r7) := span r6
          if !hourRun hh then none
          else match r7 with
          | ':' :: r8 =>
            let (mi, r9) := span r8
            if !minuteRun mi then none
            else match r9 with
            | ':' :: r10 =>
              let (ss, r11) := span r10
              if !(secondRun ss && r11.isEmpty) then none
              else
                let dt : DateTime :=
                  ⟨natOfDigits yr, natOfDigits mo, natOfDigits dd,
                   natOfDigits hh, natOfDigits mi, natOfDigits ss⟩
                if validDateTime dt then some dt else none
            | _ => none
          | _ => none
    | _ => none
  | _ => none

/-- The slice of `PIL.ExifTags.TAGS` relevant to the extractor: ids 36867
and 36868 are the Exif `DateTimeOriginal` and `DateTimeDigitized` tags; any
other id falls back to the id itself (`TAGS.get(tag, tag)`). -/
def TAGS (t : Nat) : String :=
  if t == 36867 then "DateTimeOriginal"
  else if t == 36868 then "DateTimeDigitized"
  else toString t

/-- The tag-name list tested by `_get_image_datetime`. -/
def captureTagNames : List String := ["DateTimeOriginal", "DateTimeDigitized"]

/-- Outcome of `Image.open(path)._getexif()`: the call may raise, may return
a falsy value (`None` or an empty dict), or yields the stored tag/value
pairs in container (dict insertion) order. -/
inductive ExifData where
  | ioError : ExifData
  | noData : ExifData
  | tags (entries : List (Nat × String)) : ExifData

/-- The Exif scanning loop: the first stored entry whose tag name is
`DateTimeOriginal` or `DateTimeDigitized` and whose value parses wins; a
matching entry whose value fails to parse is skipped (`continue`). -/
def exifCaptureDT : List (Nat × String) → Option DateTime
  | [] => none
  | (t, v) :: rest =>
    if TAGS t ∈ captureTagNames then
      match parseExifDT v with
      | some dt => some dt
      | none => exifCaptureDT rest
    else exifCaptureDT rest

/-- Tier 1 of `_get_image_datetime`: Exif metadata.  Any open/read error or
missing data yields nothing; a successful parse is formatted immediately. -/
def exifTier : ExifData → Option String
  | .ioError => none
  | .noData => none
  | .tags entries => (exifCaptureDT entries).map formatTimestamp

def litIMG : List Char := ['I', 'M', 'G', '_']

def litDSC : List Char := ['D', 'S', 'C', '_']

/-- Whether the second list begins with the first. -/
def startsWithL : List Char → List Char → Bool
  | [], _ => true
  | _ :: _, [] => false
  | p :: ps, c :: cs => p == c && startsWithL ps cs

/-- The next `n` characters exist and are all decimal digits. -/
def digitsAt (cs : List Char) (n : Nat) : Bool :=
  decide (n ≤ cs.length) && (cs.take n).all Char.isDigit

/-- Character at an index, if present. -/
def charAt (cs : List Char) (n : Nat) : Option Char := (cs.drop n).head?

/-- Anchored match for `(\d{8})_(\d{6})`, returning `group(0)`. -/
def matchP1 (cs : List Char) : Option (List Char) :=
  if digitsAt cs 8 && (charAt cs 8 == some '_') && digitsAt (cs.drop 9) 6 then
    some (cs.take 15)
  else none

/-- Anchored match for `IMG_(\d{8})_(\d{6})`, returning `group(0)`. -/
def matchP2 (cs : List Char) : Option (List Char) :=
  if startsWithL litIMG cs && (matchP1 (cs.drop 4)).isSome then
    some (cs.take 19)
  else none

/-- Anchored match for `DSC_(\d{14})`, returning `group(0)`. -/
def matchP3 (cs : List Char) : Option (List Char) :=
  if startsWithL litDSC cs && digitsAt (cs.drop 4) 14 then
    some (cs.take 18)
  else none

/-- Anchored match for `(\d{8})`, returning `group(0)`. -/
def matchP4 (cs : List Char) : Option (List Char) :=
  if digitsAt cs 8 then some (cs.take 8) else none

/-- Anchored match for `IMG_(\d{8})`, returning `group(0)`. -/
def matchP5 (cs : List Char) : Option (List Char) :=
  if startsWithL litIMG cs && digitsAt (cs.drop 4) 8 then
    some (cs.take 12)
  else none

/-- `re.search`: try the anchored matcher at every position, leftmost
position first. -/
def reSearch (m : List Char → Option (List Char)) : List Char → Option (List Char)
  | [] => none
  | c :: rest =>
    match m (c :: rest) with
    | some g => some g
    | none => reSearch m rest

/-- Fuel-driven worker for `removeOcc`; each step consumes at least one
character, so fuel equal to the list length always suffices. -/
def removeOccAux (pat : List Char) : Nat → List Char → List Char
  | _, [] => []
  | 0, l => l
  | fuel + 1, c :: rest =>
    if pat.length > 0 && startsWithL pat (c :: rest) then
      removeOccAux pat fuel (rest.drop (pat.length - 1))
    else
      c :: removeOccAux pat fuel rest

/-- `str.replace(pat, '')`: remove all non-overlapping occurrences of a
pattern, scanning left to right. -/
def removeOcc (pat : List Char) (l : List Char) : List Char :=
  removeOccAux pat l.length l

/-- `.replace('IMG_', '').replace('DSC_', '')` applied to `group(0)`. -/
def stripTags (cs : List Char) : List Char := removeOcc litDSC (removeOcc litIMG cs)

/-- `datetime.strptime(s, '%Y%m%d_%H%M%S')` on a matched-and-stripped group
(shape: eight digits, underscore, six digits; field widths are forced, and
success is exactly `datetime` validity of the six fields). -/
def parse8_6 (cs : List Char) : Option DateTime :=
  if cs.length == 15 && digitsAt cs 8 && (charAt cs 8 == some '_') && digitsAt (cs.drop 9) 6 then
    let dt : DateTime :=
      ⟨natOfDigits (cs.take 4), natOfDigits ((cs.drop 4).take 2), natOfDigits ((cs.drop 6).take 2),
       natOfDigits ((cs.drop 9).take 2), natOfDigits ((cs.drop 11).take 2),
       natOfDigits ((cs.drop 13).take 2)⟩
    if validDateTime dt then some dt else none
  else none

/-- `datetime.strptime(s, '%Y%m%d%H%M%S')` on a stripped `DSC_` group
(fourteen digits). -/
def parse14 (cs : List Char) : Option DateTime :=
  if cs.length == 14 && digitsAt cs 14 then
    let dt : DateTime :=
      ⟨natOfDigits (cs.take 4), natOfDigits ((cs.drop 4).take 2), natOfDigits ((cs.drop 6).take 2),
       natOfDigits ((cs.drop 8).take 2), natOfDigits ((cs.drop 10).take 2),
       natOfDigits ((cs.drop 12).take 2)⟩
    if validDateTime dt then some dt else none
  else none

/-- `datetime.strptime(s, '%Y%m%d')` on an eight-digit group (time fields
default to zero). -/
def parse8 (cs : List Char) : Option DateTime :=
  if cs.length == 8 && digitsAt cs 8 then
    let dt : DateTime :=
      ⟨natOfDigits (cs.take 4), natOfDigits ((cs.drop 4).take 2), natOfDigits ((cs.drop 6).take 2),
       0, 0, 0⟩
    if validDateTime dt then some dt else none
  else none

/-- `os.path.basename`: the part of the path after the final slash. -/
def basename (p : String) : String :=
  String.mk ((p.data.reverse.takeWhile (fun c => c != '/')).reverse)

/-- The tier-3 loop body: for each `(pattern, fmt)` pair in order, search;
on a match, strip `IMG_`/`DSC_` and parse; on parse failure (`ValueError`)
continue with the next pattern. -/
def tryPatterns :
    List ((List Char → Option (List Char)) × (List Char → Option DateTime)) →
    List Char → Option String
  | [], _ => none
  | (srch, prs) :: rest, cs =>
    match srch cs with
    | none => tryPatterns rest cs
    | some g =>
      match prs (stripTags g) with
      | some dt => some (formatTimestamp dt)
      | none => tryPatterns rest cs

/-- The `patterns` list of `_get_image_datetime`, in source order. -/
def filenamePatterns :
    List ((List Char → Option (List Char)) × (List Char → Option DateTime)) :=
  [(reSearch matchP1, parse8_6),
   (reSearch matchP2, parse8_6),
   (reSearch matchP3, parse14),
   (reSearch matchP4, parse8),
   (reSearch matchP5, parse8)]

/-- Tier 3 of `_get_image_datetime`: filename inference over the base
filename. -/
def filenameTier (path : String) : Option String :=
  tryPatterns filenamePatterns (basename path).data

/-- The same tier-3 machinery but with the pattern priority order as the
specification states it (`IMG_` variants before their bare forms); kept
distinct from `filenameTier` so the two orders can be compared. -/
def filenameTierClaimedOrder (path : String) : Option String :=
  tryPatterns
    [(reSearch matchP2, parse8_6),
     (reSearch matchP1, parse8_6),
     (reSearch matchP3, parse14),
     (reSearch matchP5, parse8),
     (reSearch matchP4, parse8)]
    (basename path).data

/-- The literal returned when every tier fails ("date unknown"). -/
def unknownDatetime : String := "日時不明"

/-- Everything `_get_image_datetime` observes about one file: the Exif read
outcome, the `os.path.getctime` outcome (already converted by
`datetime.fromtimestamp`), and the path. -/
structure FileEnv where
  exif : ExifData
  ctime : Option DateTime
  path : String

/-- `DateTimeExtractor._get_image_datetime`: tiers in strict order, each
failure falling through to the next, with the fixed placeholder at the
end. -/
def getImageDatetime (env : FileEnv) : String :=
  match exifTier env.exif with
  | some s => s
  | none =>
    match env.ctime with
    | some dt => formatTimestamp dt
    | none =>
      match filenameTier env.path with
      | some s => s
      | none => unknownDatetime

/-- The three signals a `DateTimeExtractor` thread can emit:
`status_message` (progress, "image i/total"), `datetime_extracted`
(path and resolved string), `extraction_finished`. -/
inductive BatchEvent where
  | progress (index total : Nat) : BatchEvent
  | result (path value : String) : BatchEvent
  | completed : BatchEvent
deriving DecidableEq

/-- `QThread.isInterruptionRequested`, modelled by the step index at which
the cooperative flag becomes (and stays) set: `some n` means the flag is
observed set at every check for file index `n` onwards. -/
def isInterruptionRequested (cancelAt : Option Nat) (i : Nat) : Bool :=
  match cancelAt with
  | none => false
  | some n => decide (n ≤ i)

/-- The loop of `DateTimeExtractor.run` starting at file index `i`: check
the interruption flag, emit the progress message, resolve, emit the result;
after the last file emit `extraction_finished`. -/
def runFrom (resolve : String → String) (total : Nat) (cancelAt : Option Nat) :
    List String → Nat → List BatchEvent
  | [], _ => [.completed]
  | p :: rest, i =>
    if isInterruptionRequested cancelAt i then []
    else
      .progress (i + 1) total :: .result p (resolve p) ::
        runFrom resolve total cancelAt rest (i + 1)

/-- `DateTimeExtractor.run` over a fresh batch. -/
def runBatch (resolve : String → String) (paths : List String)
    (cancelAt : Option Nat) : List BatchEvent :=
  runFrom resolve paths.length cancelAt paths 0

/-- The expected per-file event trace: for each file, a progress
notification followed by its result, in input order. -/
def fileEvents (resolve : String → String) (total : Nat) :
    List String → Nat → List BatchEvent
  | [], _ => []
  | p :: rest, i =>
    .progress (i + 1) total :: .result p (resolve p) ::
      fileEvents resolve total rest (i + 1)

/-- An extractor thread observed at its between-files suspension point:
`remaining` files not yet processed, the next file having index `idx`. -/
structure RunningWorker where
  resolve : String → String
  total : Nat
  remaining : List String
  idx : Nat

/-- `requestInterruption()` followed by `wait()`: the events the old worker
still emits are those of its remaining loop run with the flag set from the
current index on. -/
def interruptAndWait (w : RunningWorker) : List BatchEvent :=
  runFrom w.resolve w.total (some w.idx) w.remaining w.idx

/-- `PhotoTimestampPrinterApp._process_selected_files`: if an extractor
thread is running, request interruption and wait for it to stop, then start
the new batch; the observed event stream is the old worker's tail followed
by the new batch's events. -/
def processSelectedFiles (running : Option RunningWorker)
    (resolve : String → String) (paths : List String) : List BatchEvent :=
  (match running with
   | some w => interruptAndWait w
   | none => []) ++ runBatch resolve paths none

/-- Number of `result` events in a trace. -/
def countResults (es : List BatchEvent) : Nat :=
  es.countP (fun e => match e with | .result _ _ => true | _ => false)

/-- Number of `completed` events in a trace. -/
def countCompleted (es : List BatchEvent) : Nat :=
  es.countP (fun e => match e with | .completed => true | _ => false)

/-- Observable actions of the print loop in `_print_action`:
`drawPixmap` for one photo's page and `printer.newPage()`. -/
inductive PrintEvent where
  | drawPage (path : String) : PrintEvent
  | pageBreak : PrintEvent
deriving DecidableEq

/-- How a print job ends: normally, aborted because `painter.begin`
returned false (`RuntimeError`), or aborted because a photo failed to
decode (`Image.open` raised inside the loop). -/
inductive PrintOutcome where
  | ok : PrintOutcome
  | beginFailed : PrintOutcome
  | decodeFailed (path : String) : PrintOutcome
deriving DecidableEq

/-- The `for i, item in enumerate(selected_items)` loop of `_print_action`:
draw each photo's page, issue a page break while `i < len - 1`; the whole
loop sits inside one `try`, so a decode failure raises out of the loop and
ends the job there. -/
def printLoop (decodeOk : String → Bool) : List String → Nat → Nat →
    List PrintEvent × PrintOutcome
  | [], _, _ => ([], .ok)
  | p :: rest, i, n =>
    if decodeOk p then
      let tail := printLoop decodeOk rest (i + 1) n
      ((PrintEvent.drawPage p ::
          (if i < n - 1 then [PrintEvent.pageBreak] else [])) ++ tail.1,
       tail.2)
    else ([], .decodeFailed p)

/-- `_print_action` after the dialog is accepted: empty selection returns
early; a failed `painter.begin` aborts before any page; otherwise run the
photo loop. -/
def printAction (beginOk : Bool) (decodeOk : String → Bool)
    (paths : List String) : List PrintEvent × PrintOutcome :=
  if paths.isEmpty then ([], .ok)
  else if beginOk then printLoop decodeOk paths 0 paths.length
  else ([], .beginFailed)

/-- The page trace of a fully successful job: one page per photo, in input
order, a page break after every photo except the last. -/
def pagesTrace : List String → List PrintEvent
  | [] => []
  | [p] => [.drawPage p]
  | p :: q :: rest => .drawPage p :: .pageBreak :: pagesTrace (q :: rest)

/-- The event trace of a run of photos each followed by a page break. -/
def drawnThenBreak : List String → List PrintEvent
  | [] => []
  | q :: rest => .drawPage q :: .pageBreak :: drawnThenBreak rest

/-- Number of pages drawn in a print trace. -/
def countDraws (es : List PrintEvent) : Nat :=
  es.countP (fun e => match e with | .drawPage _ => true | _ => false)

/-- Number of page breaks in a print trace. -/
def countBreaks (es : List PrintEvent) : Nat :=
  es.countP (fun e => match e with | .pageBreak => true | _ => false)

/-- `QSize::scaled` with `Qt.AspectRatioMode.KeepAspectRatio` (as used by
`QPixmap.scaled` in `_print_action` and `_update_preview`): integer
arithmetic, a degenerate source returns the target size unchanged. -/
def scaledKeepAspect (w h tw th : Nat) : Nat × Nat :=
  if w == 0 || h == 0 then (tw, th)
  else
    let rw := th * w / h
    if rw ≤ tw then (rw, th) else (tw, tw * h / w)

/-- The placement computed in `_print_action`: scale the pixmap to the
printable area keeping aspect ratio, then center it with
`x = int((target_width - draw_width) / 2)` and likewise for `y`
(truncation toward zero; the differences are non-negative). -/
def drawRect (w h tw th : Nat) : Nat × Nat × Nat × Nat :=
  let s := scaledKeepAspect w h tw th
  ((tw - s.1) / 2, (th - s.2) / 2, s.1, s.2)

/-- PIL image modes occurring in the pipeline: `L` (single-channel
luminance, result of `ImageOps.grayscale`), `RGB`, `RGBA`, and whatever
mode the source file decoded to. -/
inductive PILMode where
  | luminance : PILMode
  | rgb : PILMode
  | rgba : PILMode
  | other (channels : Nat) (alpha : Bool) : PILMode
deriving DecidableEq

/-- Channel count of a mode. -/
def PILMode.channels : PILMode → Nat
  | .luminance => 1
  | .rgb => 3
  | .rgba => 4
  | .other n _ => n

/-- Whether a mode carries a transparency plane. -/
def PILMode.hasAlpha : PILMode → Bool
  | .luminance => false
  | .rgb => false
  | .rgba => true
  | .other _ a => a

/-- One recorded draw call: `ImageDraw.text(pos, text, font, fill)`.  The
`font` field is `some size` for the requested scalable font and `none` for
the fixed-size built-in fallback; `mode` records the image mode the text
was drawn onto. -/
inductive DrawOp where
  | text (pos : Nat × Nat) (s : String) (font : Option Nat)
      (color : Nat × Nat × Nat) (mode : PILMode) : DrawOp
deriving DecidableEq

/-- A decoded PIL image buffer: mode, dimensions, and the draw calls
applied to it. -/
structure PILImage where
  mode : PILMode
  width : Nat
  height : Nat
  ops : List DrawOp
deriving DecidableEq

/-- `ImageOps.grayscale`: convert to single-channel luminance. -/
def grayscale (img : PILImage) : PILImage := { img with mode := .luminance }

/-- `Image.convert(mode)`. -/
def convertMode (img : PILImage) (m : PILMode) : PILImage := { img with mode := m }

/-- `ImageDraw.Draw(img)` followed by `draw.text(...)`. -/
def drawText (img : PILImage) (pos : Nat × Nat) (s : String)
    (font : Option Nat) (color : Nat × Nat × Nat) : PILImage :=
  { img with ops := img.ops ++ [.text pos s font color img.mode] }

/-- The style state read by `_update_preview` and `_print_action`: the
date-format combo text, the text color, the text size slider, the
background-opacity slider, and the color/monochrome radio choice. -/
structure StyleSettings where
  dateFormat : String
  textColor : Nat × Nat × Nat
  textSize : Nat
  bgOpacity : Nat
  mono : Bool
deriving DecidableEq

/-- The shared annotation steps of `_update_preview` and `_print_action`:
monochrome converts to luminance then to `RGB` (no alpha), color converts
to `RGBA`; then the timestamp text is drawn at `(10, 10)` with the selected
color, using the requested font size or the built-in fallback. -/
def annotate (s : StyleSettings) (fontOk : Bool) (img : PILImage)
    (dateTimeStr : String) : PILImage :=
  let converted :=
    if s.mono then convertMode (grayscale img) .rgb
    else convertMode img .rgba
  drawText converted (10, 10) dateTimeStr
    (if fontOk then some s.textSize else none) s.textColor

/-- The two `QImage` pixel layouts chosen by the pipeline. -/
inductive QImageFormat where
  | rgb888 : QImageFormat
  | rgba8888 : QImageFormat
deriving DecidableEq

/-- Bytes per pixel of a `QImage` format. -/
def QImageFormat.bytesPerPixel : QImageFormat → Nat
  | .rgb888 => 3
  | .rgba8888 => 4

/-- The conversion to `QImage` in both `_update_preview` and
`_print_action`: mode `RGB` maps to `Format_RGB888` with stride
`width * 3`, anything else to `Format_RGBA8888` with stride `width * 4`. -/
def toQImage (img : PILImage) : QImageFormat × Nat :=
  if img.mode == PILMode.rgb then (.rgb888, img.width * 3)
  else (.rgba8888, img.width * 4)

/-- `_update_preview` after annotation: convert to a pixmap and scale it to
the preview area keeping aspect ratio.  Returns the annotated image and the
scaled display size. -/
def updatePreview (s : StyleSettings) (fontOk : Bool) (img : PILImage)
    (dateTimeStr : String) (areaW areaH : Nat) : PILImage × (Nat × Nat) :=
  let a := annotate s fontOk img dateTimeStr
  (a, scaledKeepAspect a.width a.height areaW areaH)

/-- The signal/slot pairs wired in `_setup_connections`. -/
def connections : List (String × String) :=
  [("photo_list_widget.itemSelectionChanged", "_update_preview"),
   ("color_radio.toggled", "_update_preview"),
   ("mono_radio.toggled", "_update_preview"),
   ("text_color_button.clicked", "_select_text_color"),
   ("text_size_slider.valueChanged", "_update_preview"),
   ("bg_opacity_slider.valueChanged", "_update_preview"),
   ("date_format_combo.currentTextChanged", "_update_preview"),
   ("btn_select_files.clicked", "_select_files"),
   ("btn_select_folder.clicked", "_select_folder"),
   ("print_button.clicked", "_print_action")]

/-! ## Helper lemmas -/

theorem runFrom_none (resolve : String → String) (total : Nat) :
    ∀ (ps : List String) (i : Nat),
      runFrom resolve total none ps i =
        fileEvents resolve total ps i ++ [BatchEvent.completed] := by
  intro ps
  induction ps with
  | nil => intro i; simp [runFrom, fileEvents]
  | cons p rest ih =>
    intro i
    simp [runFrom, fileEvents, isInterruptionRequested, ih]

theorem runFrom_cancelled (resolve : String → String) (total N : Nat) :
    ∀ (ps : List String) (i : Nat), i ≤ N → N < i + ps.length →
      runFrom resolve total (some N) ps i =
        fileEvents resolve total (ps.take (N - i)) i := by
  intro ps
  induction ps with
  | nil =>
    intro i h1 h2
    simp at h2
    omega
  | cons p rest ih =>
    intro i h1 h2
    by_cases hi : i = N
    · subst hi
      simp [runFrom, isInterruptionRequested, fileEvents]
    · have hlt : i < N := lt_of_le_of_ne h1 hi
      have hreq : isInterruptionRequested (some N) i = false := by
        simp [isInterruptionRequested]
        omega
      have htake : N - i = (N - (i + 1)) + 1 := by omega
      rw [runFrom, if_neg (by simp [hreq]), htake]
      simp only [List.take_succ_cons, fileEvents]
      rw [ih (i + 1) (by omega) (by simp at h2 ⊢; omega)]

theorem fileEvents_countResults (resolve : String → String) (total : Nat) :
    ∀ (ps : List String) (i : Nat),
      countResults (fileEvents resolve total ps i) = ps.length := by
  intro ps
  induction ps with
  | nil => intro i; simp [fileEvents, countResults]
  | cons p rest ih =>
    intro i
    simp [fileEvents, countResults, List.countP_cons] at ih ⊢
    exact ih (i + 1)

theorem fileEvents_countCompleted (resolve : String → String) (total : Nat) :
    ∀ (ps : List String) (i : Nat),
      countCompleted (fileEvents resolve total ps i) = 0 := by
  intro ps
  induction ps with
  | nil => intro i; simp [fileEvents, countCompleted]
  | cons p rest ih =>
    intro i
    simp [fileEvents, countCompleted, List.countP_cons] at ih ⊢
    exact ih (i + 1)

theorem interruptAndWait_nil (w : RunningWorker) (hw : w.remaining ≠ []) :
    interruptAndWait w = [] := by
  unfold interruptAndWait
  cases hr : w.remaining with
  | nil => exact absurd hr hw
  | cons p rest => simp [runFrom, isInterruptionRequested]

theorem printLoop_allOk (decodeOk : String → Bool) :
    ∀ (ps : List String) (i n : Nat), i + ps.length = n →
      (∀ p ∈ ps, decodeOk p = true) →
      printLoop decodeOk ps i n = (pagesTrace ps, PrintOutcome.ok) := by
  intro ps
  induction ps with
  | nil => intro i n _ _; simp [printLoop, pagesTrace]
  | cons p rest ih =>
    intro i n hn hok
    have hp : decodeOk p = true := hok p (by simp)
    cases rest with
    | nil =>
      have hlast : ¬ i < n - 1 := by simp at hn; omega
      simp [printLoop, hp, hlast, pagesTrace]
    | cons q rs =>
      have hmid : i < n - 1 := by simp at hn; omega
      have htail := ih (i + 1) n (by simp at hn ⊢; omega)
        (fun x hx => hok x (by simp [hx]))
      have hstep : printLoop decodeOk (p :: q :: rs) i n =
          ((PrintEvent.drawPage p ::
              (if i < n - 1 then [PrintEvent.pageBreak] else [])) ++
            (printLoop decodeOk (q :: rs) (i + 1) n).1,
           (printLoop decodeOk (q :: rs) (i + 1) n).2) := by
        conv_lhs => rw [printLoop]
        rw [if_pos hp]
      rw [hstep, htail]
      simp [hmid, pagesTrace]

theorem printLoop_failAt (decodeOk : String → Bool) (p : String)
    (post : List String) (hp : decodeOk p = false) :
    ∀ (pre : List String) (i n : Nat), i + (pre ++ p :: post).length = n →
      (∀ q ∈ pre, decodeOk q = true) →
      printLoop decodeOk (pre ++ p :: post) i n =
        (drawnThenBreak pre, PrintOutcome.decodeFailed p) := by
  intro pre
  induction pre with
  | nil => intro i n _ _; simp [printLoop, hp, drawnThenBreak]
  | cons q pre' ih =>
    intro i n hn hok
    have hq : decodeOk q = true := hok q (by simp)
    have hmid : i < n - 1 := by simp at hn; omega
    have htail := ih (i + 1) n (by simp at hn ⊢; omega)
      (fun x hx => hok x (by simp [hx]))
    have hstep : printLoop decodeOk (q :: (pre' ++ p :: post)) i n =
        ((PrintEvent.drawPage q ::
            (if i < n - 1 then [PrintEvent.pageBreak] else [])) ++
          (printLoop decodeOk (pre' ++ p :: post) (i + 1) n).1,
         (printLoop decodeOk (pre' ++ p :: post) (i + 1) n).2) := by
      conv_lhs => rw [printLoop]
      rw [if_pos hq]
    rw [List.cons_append, hstep, htail]
    simp [hmid, drawnThenBreak]

theorem pagesTrace_counts :
    ∀ (l : List String),
      countDraws (pagesTrace l) = l.length ∧
      countBreaks (pagesTrace l) = l.length - 1 := by
  intro l
  induction l with
  | nil => simp [pagesTrace, countDraws, countBreaks]
  | cons p rest ih =>
    cases rest with
    | nil => simp [pagesTrace, countDraws, countBreaks, List.countP_cons]
    | cons q rs =>
      obtain ⟨ihd, ihb⟩ := ih
      constructor
      · simp [pagesTrace, countDraws, List.countP_cons] at ihd ⊢
        omega
      · simp [pagesTrace, countBreaks, List.countP_cons] at ihb ⊢
        omega

/-! ## Claim theorems -/

/-- C1: for every file whose embedded metadata contains a valid capture
time in the pattern `YYYY:MM:DD HH:MM:SS`, `resolve_timestamp`
(`_get_image_datetime`) returns that time formatted as `YYYY/MM/DD HH:MM`,
and neither the filesystem creation time nor the filename influences the
result: the Exif tier is consulted first and the resolver stops there. -/
theorem c1_exif_wins (entries : List (Nat × String)) (dt : DateTime)
    (c c' : Option DateTime) (p p' : String)
    (h : exifCaptureDT entries = some dt) :
    getImageDatetime ⟨.tags entries, c, p⟩ = formatTimestamp dt ∧
    getImageDatetime ⟨.tags entries, c, p⟩ =
      getImageDatetime ⟨.tags entries, c', p'⟩ ∧
    exifTier (.tags entries) = some (formatTimestamp dt) := by
  have ht : exifTier (.tags entries) = some (formatTimestamp dt) := by
    simp [exifTier, h]
  refine ⟨?_, ?_, ht⟩ <;> simp [getImageDatetime, ht]

/-- C1 witness: a file with a valid `DateTimeOriginal` value, a filesystem
creation time, and a datable filename resolves to the Exif time. -/
theorem c1_witness :
    getImageDatetime ⟨.tags [(34853, "gps"), (36867, "2021:05:05 12:34:56")],
        some ⟨2000, 1, 1, 0, 0, 0⟩, "IMG_19990101_000000.jpg"⟩ =
      "2021/05/05 12:34" ∧
    getImageDatetime ⟨.tags [(34853, "gps"), (36867, "2021:05:05 12:34:56")],
        some ⟨2000, 1, 1, 0, 0, 0⟩, "IMG_19990101_000000.jpg"⟩ =
      getImageDatetime ⟨.tags [(34853, "gps"), (36867, "2021:05:05 12:34:56")],
        none, "photo.jpg"⟩ := by
  have h := c1_exif_wins [(34853, "gps"), (36867, "2021:05:05 12:34:56")]
    ⟨2021, 5, 5, 12, 34, 56⟩ (some ⟨2000, 1, 1, 0, 0, 0⟩) none
    "IMG_19990101_000000.jpg" "photo.jpg" (by decide)
  exact ⟨by rw [h.1]; decide, h.2.1⟩

/-- C2 counterexample: the claim orders the tier-3 patterns with
`IMG_<8>_<6>` before `<8>_<6>`, but the source tries `(\d{8})_(\d{6})`
first; on a filename containing a bare datestamp before an `IMG_`
datestamp the two orders disagree, and the code returns the bare match. -/
theorem c2_counterexample :
    filenameTier "20230101_120000_IMG_20230615_143000.jpg" =
      some "2023/01/01 12:00" ∧
    filenameTierClaimedOrder "20230101_120000_IMG_20230615_143000.jpg" =
      some "2023/06/15 14:30" ∧
    ("2023/01/01 12:00" : String) ≠ "2023/06/15 14:30" := by
  refine ⟨by decide, by decide, by decide⟩

/-- C2 amended: the patterns are applied to the base filename by substring
search in the priority order `<8>_<6>`, `IMG_<8>_<6>`, `DSC_<14>`, `<8>`,
`IMG_<8>`; the first pattern in that order whose (leftmost) match converts
to a valid date wins, and on conversion failure scanning continues with the
next pattern.  In particular whenever the first pattern matches and its
value converts, that value is the tier-3 result. -/
theorem c2_amended (path : String) (g : List Char) (dt : DateTime)
    (hm : reSearch matchP1 (basename path).data = some g)
    (hp : parse8_6 (stripTags g) = some dt) :
    filenameTier path = some (formatTimestamp dt) ∧
    filenameTier path = tryPatterns filenamePatterns (basename path).data := by
  constructor
  · simp [filenameTier, filenamePatterns, tryPatterns, hm, hp]
  · rfl

/-- C2 witness: the amended priority applied to the counterexample
filename returns the bare-pattern value. -/
theorem c2_witness :
    filenameTier "20230101_120000_IMG_20230615_143000.jpg" =
      some "2023/01/01 12:00" := by
  have h := c2_amended "20230101_120000_IMG_20230615_143000.jpg"
    "20230101_120000".data ⟨2023, 1, 1, 12, 0, 0⟩ (by decide) (by decide)
  rw [h.1]; decide

/-- C3: cancelling a batch at the check before file `N` (with `N < M` files
in total) yields per file, in input order, a progress notification followed
by that file's result, for exactly the first `N` files — so exactly `N`
result events and zero completion events; an uncancelled run emits one
completion event after the last result; and starting a new batch while a
worker is running first interrupts and joins it, so the old worker
contributes no further events and the observed stream is exactly the new
batch's. -/
theorem c3_batch (resolve : String → String) (paths : List String) (N : Nat)
    (hN : N < paths.length) (w : RunningWorker) (hw : w.remaining ≠ []) :
    runBatch resolve paths (some N) =
      fileEvents resolve paths.length (paths.take N) 0 ∧
    countResults (runBatch resolve paths (some N)) = N ∧
    countCompleted (runBatch resolve paths (some N)) = 0 ∧
    runBatch resolve paths none =
      fileEvents resolve paths.length paths 0 ++ [BatchEvent.completed] ∧
    countCompleted (runBatch resolve paths none) = 1 ∧
    processSelectedFiles (some w) resolve paths =
      runBatch resolve paths none := by
  have hc : runBatch resolve paths (some N) =
      fileEvents resolve paths.length (paths.take N) 0 := by
    unfold runBatch
    rw [runFrom_cancelled resolve paths.length N paths 0 (Nat.zero_le N)
      (by simpa using hN)]
    simp
  have hu : runBatch resolve paths none =
      fileEvents resolve paths.length paths 0 ++ [BatchEvent.completed] := by
    unfold runBatch
    exact runFrom_none resolve paths.length paths 0
  refine ⟨hc, ?_, ?_, hu, ?_, ?_⟩
  · rw [hc, fileEvents_countResults]
    simp
    omega
  · rw [hc, fileEvents_countCompleted]
  · have h1 := fileEvents_countCompleted resolve paths.length paths 0
    rw [hu]
    unfold countCompleted at h1 ⊢
    rw [List.countP_append, h1]
    rfl
  · simp [processSelectedFiles, interruptAndWait_nil w hw]

/-- C3 witness: a three-file batch cancelled before file index 2 emits two
progress/result pairs and no completion; restarting while a worker still
has a file pending yields exactly the new batch's events. -/
theorem c3_witness :
    countResults (runBatch (fun _ => "t") ["a", "b", "c"] (some 2)) = 2 ∧
    countCompleted (runBatch (fun _ => "t") ["a", "b", "c"] (some 2)) = 0 ∧
    countCompleted (runBatch (fun _ => "t") ["a", "b", "c"] none) = 1 ∧
    processSelectedFiles (some ⟨fun _ => "t", 3, ["c"], 2⟩)
        (fun _ => "t") ["a", "b", "c"] =
      runBatch (fun _ => "t") ["a", "b", "c"] none := by
  have h := c3_batch (fun _ => "t") ["a", "b", "c"] 2 (by simp)
    ⟨fun _ => "t", 3, ["c"], 2⟩ (by simp)
  exact ⟨h.2.1, h.2.2.1, h.2.2.2.2.1, h.2.2.2.2.2⟩

/-- C7 counterexample: when the container stores `DateTimeDigitized` before
`DateTimeOriginal`, the extractor returns the digitized value, not the
original-capture value — the original-capture tag does not always win. -/
theorem c7_counterexample :
    getImageDatetime ⟨.tags [(36868, "2020:01:01 00:00:00"),
        (36867, "2021:05:05 12:34:56")], none, "photo.jpg"⟩ =
      "2020/01/01 00:00" ∧
    ("2020/01/01 00:00" : String) ≠ "2021/05/05 12:34" := by
  refine ⟨by decide, by decide⟩

/-- C7 amended: when both tags are present with parseable values, the
extractor returns whichever of the two tags the container stores first:
`DateTimeOriginal` wins exactly when it is stored before
`DateTimeDigitized`, and conversely. -/
theorem c7_amended (v1 v2 : String) (dt1 dt2 : DateTime)
    (h1 : parseExifDT v1 = some dt1) (h2 : parseExifDT v2 = some dt2) :
    exifCaptureDT [(36867, v1), (36868, v2)] = some dt1 ∧
    exifCaptureDT [(36868, v2), (36867, v1)] = some dt2 := by
  constructor <;> simp [exifCaptureDT, TAGS, captureTagNames, h1, h2]

/-- C7 witness: concrete original/digitized values in both storage
orders. -/
theorem c7_witness :
    exifCaptureDT [(36867, "2021:05:05 12:34:56"),
        (36868, "2020:01:01 00:00:00")] =
      some ⟨2021, 5, 5, 12, 34, 56⟩ ∧
    exifCaptureDT [(36868, "2020:01:01 00:00:00"),
        (36867, "2021:05:05 12:34:56")] =
      some ⟨2020, 1, 1, 0, 0, 0⟩ := by
  exact c7_amended "2021:05:05 12:34:56" "2020:01:01 00:00:00"
    ⟨2021, 5, 5, 12, 34, 56⟩ ⟨2020, 1, 1, 0, 0, 0⟩ (by decide) (by decide)

/-- C8: the resolver is total over every modelled failure — an Exif I/O
error behaves exactly like absent metadata, an unparsable tag value is
not-found for tier 1, and when all three tiers fail the result is the
fixed placeholder `日時不明`, which is not empty. -/
theorem c8_total (env : FileEnv) (t : Nat) (v : String)
    (hv : parseExifDT v = none)
    (he : exifTier env.exif = none) (hc : env.ctime = none)
    (hf : filenameTier env.path = none) :
    getImageDatetime env = unknownDatetime ∧
    unknownDatetime ≠ "" ∧
    exifTier (.tags [(t, v)]) = none ∧
    (∀ (c : Option DateTime) (f : String),
      getImageDatetime ⟨.ioError, c, f⟩ = getImageDatetime ⟨.noData, c, f⟩) := by
  refine ⟨?_, by decide, ?_, ?_⟩
  · simp [getImageDatetime, he, hc, hf]
  · by_cases hT : TAGS t ∈ captureTagNames <;>
      simp [exifTier, exifCaptureDT, hT, hv]
  · intro c f
    simp [getImageDatetime, exifTier]

/-- C8 witness: a file whose Exif read raises, whose stat fails, and whose
name matches no pattern resolves to the placeholder. -/
theorem c8_witness :
    getImageDatetime ⟨.ioError, none, "photo.jpg"⟩ = unknownDatetime ∧
    unknownDatetime ≠ "" := by
  have h := c8_total ⟨.ioError, none, "photo.jpg"⟩ 36867 "notadate"
    (by decide) (by simp [exifTier]) rfl (by decide)
  exact ⟨h.1, h.2.1⟩

/-- C4 counterexample: the print loop of `_print_action` sits inside one
`try`, so a photo that fails to decode aborts the rest of the job — with
photos `a`, `b`, `c` where `b` fails, page `a` is drawn, the job ends in a
decode failure, and `c` is never rendered, contradicting the claim that
remaining files are still processed and the job is not aborted. -/
theorem c4_counterexample :
    printAction true (fun q => q != "b.jpg") ["a.jpg", "b.jpg", "c.jpg"] =
      ([PrintEvent.drawPage "a.jpg", PrintEvent.pageBreak],
       PrintOutcome.decodeFailed "b.jpg") ∧
    PrintEvent.drawPage "c.jpg" ∉
      (printAction true (fun q => q != "b.jpg")
        ["a.jpg", "b.jpg", "c.jpg"]).1 := by
  refine ⟨by decide, by decide⟩

/-- C4 amended: per-file failures during batch extraction are isolated —
every file of a batch yields a result event and the batch completes
regardless of per-file outcomes; a job-level setup failure
(`painter.begin` returning false) aborts the print job before any page is
emitted; but a per-photo decode failure during a print job is NOT
isolated: the photos before the failing one are rendered and the job then
aborts, rendering neither the failing photo nor any later one. -/
theorem c4_amended (resolve : String → String)
    (paths paths2 : List String) (decodeOk : String → Bool)
    (pre post : List String) (p : String)
    (h2 : paths2 ≠ []) (hpre : ∀ q ∈ pre, decodeOk q = true)
    (hp : decodeOk p = false) :
    countResults (runBatch resolve paths none) = paths.length ∧
    countCompleted (runBatch resolve paths none) = 1 ∧
    printAction false decodeOk paths2 = ([], PrintOutcome.beginFailed) ∧
    printAction true decodeOk (pre ++ p :: post) =
      (drawnThenBreak pre, PrintOutcome.decodeFailed p) := by
  refine ⟨?_, ?_, ?_, ?_⟩
  · unfold runBatch
    rw [runFrom_none, countResults, List.countP_append,
      ← countResults, fileEvents_countResults]
    rfl
  · unfold runBatch
    rw [runFrom_none, countCompleted, List.countP_append,
      ← countCompleted, fileEvents_countCompleted]
    rfl
  · have : paths2.isEmpty = false := by
      cases paths2 with
      | nil => exact absurd rfl h2
      | cons a l => rfl
    simp [printAction, this]
  · have hne : (pre ++ p :: post).isEmpty = false := by
      cases pre <;> rfl
    simp only [printAction, hne, Bool.false_eq_true, if_false, if_true]
    exact printLoop_failAt decodeOk p post hp pre 0 (pre ++ p :: post).length
      (by simp) hpre

/-- C4 witness: concrete instances of the amended statement. -/
theorem c4_witness :
    countResults (runBatch (fun _ => "t") ["a", "b"] none) = 2 ∧
    printAction false (fun _ => true) ["a"] = ([], PrintOutcome.beginFailed) ∧
    printAction true (fun q => q != "y") ["x", "y", "z"] =
      (drawnThenBreak ["x"], PrintOutcome.decodeFailed "y") := by
  have h := c4_amended (fun _ => "t") ["a", "b"] ["a"] (fun q => q != "y")
    ["x"] ["z"] "y" (by simp) (by decide) (by decide)
  exact ⟨h.1, h.2.2.1, h.2.2.2⟩

/-- C6: a print job over a non-empty list of photos that all decode renders
one page per photo, in input order, with a page break after every photo
except the last: `n` pages and `n - 1` page breaks. -/
theorem c6_pages (decodeOk : String → Bool) (paths : List String)
    (h0 : paths ≠ []) (hok : ∀ p ∈ paths, decodeOk p = true) :
    printAction true decodeOk paths = (pagesTrace paths, PrintOutcome.ok) ∧
    countDraws (pagesTrace paths) = paths.length ∧
    countBreaks (pagesTrace paths) = paths.length - 1 := by
  have hne : paths.isEmpty = false := by
    cases paths with
    | nil => exact absurd rfl h0
    | cons a l => rfl
  refine ⟨?_, (pagesTrace_counts paths).1, (pagesTrace_counts paths).2⟩
  simp only [printAction, hne, Bool.false_eq_true, if_false, if_true]
  exact printLoop_allOk decodeOk paths 0 paths.length (by simp) hok

/-- C6 witness: three photos yield exactly three pages and two page
breaks. -/
theorem c6_witness :
    printAction true (fun _ => true) ["a", "b", "c"] =
      (pagesTrace ["a", "b", "c"], PrintOutcome.ok) ∧
    countDraws (pagesTrace ["a", "b", "c"]) = 3 ∧
    countBreaks (pagesTrace ["a", "b", "c"]) = 2 := by
  have h := c6_pages (fun _ => true) ["a", "b", "c"] (by simp)
    (fun p _ => rfl)
  exact ⟨h.1, h.2.1, h.2.2⟩

/-- C5: for a source image with positive dimensions, the page placement of
`_print_action` scales the pixmap so that its width and height are each at
most the printable width and height, preserves the aspect ratio up to the
integer rounding of `QSize::scaled`, and centers it: the offsets are
`(printable_width - scaled_width) / 2` and
`(printable_height - scaled_height) / 2`, rounded toward zero. -/
theorem c5_fit_center (w h tw th : Nat) (hw : 0 < w) (hh : 0 < h) :
    (scaledKeepAspect w h tw th).1 ≤ tw ∧
    (scaledKeepAspect w h tw th).2 ≤ th ∧
    (drawRect w h tw th).1 = (tw - (scaledKeepAspect w h tw th).1) / 2 ∧
    (drawRect w h tw th).2.1 = (th - (scaledKeepAspect w h tw th).2) / 2 ∧
    ((scaledKeepAspect w h tw th).1 * h ≤ (scaledKeepAspect w h tw th).2 * w ∧
       (scaledKeepAspect w h tw th).2 * w <
         ((scaledKeepAspect w h tw th).1 + 1) * h ∨
     (scaledKeepAspect w h tw th).2 * w ≤ (scaledKeepAspect w h tw th).1 * h ∧
       (scaledKeepAspect w h tw th).1 * h <
         ((scaledKeepAspect w h tw th).2 + 1) * w) := by
  have hz : (w == 0 || h == 0) = false := by
    simp
    omega
  by_cases hcase : th * w / h ≤ tw
  · have hs : scaledKeepAspect w h tw th = (th * w / h, th) := by
      simp only [scaledKeepAspect, hz, Bool.false_eq_true, if_false]
      rw [if_pos hcase]
    rw [hs]
    have hd1 : th * w / h * h ≤ th * w := Nat.div_mul_le_self _ _
    have hd2 : th * w < (th * w / h + 1) * h := by
      rw [Nat.add_mul, Nat.one_mul]
      exact Nat.lt_div_mul_add hh
    exact ⟨hcase, le_refl th, by simp [drawRect, hs], by simp [drawRect, hs],
      Or.inl ⟨hd1, hd2⟩⟩
  · have hs : scaledKeepAspect w h tw th = (tw, tw * h / w) := by
      simp only [scaledKeepAspect, hz, Bool.false_eq_true, if_false]
      rw [if_neg hcase]
    rw [hs]
    have hgt : (tw + 1) * h ≤ th * w := by
      have : tw + 1 ≤ th * w / h := Nat.succ_le_of_lt (Nat.lt_of_not_le hcase)
      exact (Nat.le_div_iff_mul_le hh).mp this
    have hmul : tw * h ≤ th * w := by
      have : tw * h ≤ (tw + 1) * h := Nat.mul_le_mul_right h (by omega)
      omega
    have hsh : tw * h / w ≤ th := by
      have h1 : tw * h / w ≤ th * w / w := Nat.div_le_div_right hmul
      have h2 : th * w / w = th := Nat.mul_div_cancel th hw
      omega
    have hd1 : tw * h / w * w ≤ tw * h := Nat.div_mul_le_self _ _
    have hd2 : tw * h < (tw * h / w + 1) * w := by
      rw [Nat.add_mul, Nat.one_mul]
      exact Nat.lt_div_mul_add hw
    exact ⟨le_refl tw, hsh, by simp [drawRect, hs], by simp [drawRect, hs],
      Or.inr ⟨hd1, hd2⟩⟩

/-- C5 witness: a 4000x3000 photo on a 1050x1500 printable area scales to
1050x787 and is centered at (0, 356). -/
theorem c5_witness :
    scaledKeepAspect 4000 3000 1050 1500 = (1050, 787) ∧
    drawRect 4000 3000 1050 1500 = (0, 356, 1050, 787) ∧
    (scaledKeepAspect 4000 3000 1050 1500).1 ≤ 1050 ∧
    (scaledKeepAspect 4000 3000 1050 1500).2 ≤ 1500 := by
  have h := c5_fit_center 4000 3000 1050 1500 (by decide) (by decide)
  exact ⟨by decide, by decide, h.1, h.2.1⟩

/-- C9: monochrome annotation converts the source to single-channel
luminance and then to a three-channel no-alpha representation before the
text is drawn, and the buffer handed to `QImage` uses three bytes per
pixel; color annotation yields a four-channel representation with alpha
and a four-bytes-per-pixel buffer; in both cases the declared pixel layout
matches the buffer's channel count. -/
theorem c9_channels (s : StyleSettings) (fontOk : Bool) (img : PILImage)
    (ts : String) :
    (annotate s fontOk img ts).mode =
      (if s.mono then PILMode.rgb else PILMode.rgba) ∧
    (annotate s fontOk img ts).mode.channels = (if s.mono then 3 else 4) ∧
    (annotate s fontOk img ts).mode.hasAlpha = !s.mono ∧
    (toQImage (annotate s fontOk img ts)).1 =
      (if s.mono then QImageFormat.rgb888 else QImageFormat.rgba8888) ∧
    (toQImage (annotate s fontOk img ts)).2 =
      img.width * (if s.mono then 3 else 4) ∧
    (toQImage (annotate s fontOk img ts)).1.bytesPerPixel =
      (annotate s fontOk img ts).mode.channels ∧
    (annotate s fontOk img ts).ops =
      img.ops ++ [DrawOp.text (10, 10) ts
        (if fontOk then some s.textSize else none) s.textColor
        (if s.mono then PILMode.rgb else PILMode.rgba)] := by
  obtain ⟨fmt, col, sz, op, mono⟩ := s
  cases mono <;>
    simp [annotate, grayscale, convertMode, drawText, toQImage,
      PILMode.channels, PILMode.hasAlpha, QImageFormat.bytesPerPixel]

/-- C10: the annotated image and preview pipeline are independent of the
selected date display format — for two style settings equal in every field
except `dateFormat`, with the same photo, timestamp string, font outcome
and preview area, the rendered output is identical; the format combo is
nevertheless wired to trigger `_update_preview`. -/
theorem c10_format_independent (s1 s2 : StyleSettings) (fontOk : Bool)
    (img : PILImage) (ts : String) (areaW areaH : Nat)
    (hc : s1.textColor = s2.textColor) (hs : s1.textSize = s2.textSize)
    (hb : s1.bgOpacity = s2.bgOpacity) (hm : s1.mono = s2.mono) :
    updatePreview s1 fontOk img ts areaW areaH =
      updatePreview s2 fontOk img ts areaW areaH ∧
    ("date_format_combo.currentTextChanged", "_update_preview") ∈
      connections := by
  obtain ⟨f1, c1, z1, b1, m1⟩ := s1
  obtain ⟨f2, c2, z2, b2, m2⟩ := s2
  simp at hc hs hb hm
  subst hc hs hb hm
  exact ⟨rfl, by simp [connections]⟩

/-- C10 witness: two settings differing only in the date format render
identically. -/
theorem c10_witness :
    updatePreview ⟨"YYYY/MM/DD HH:MM", (255, 255, 255), 16, 50, false⟩ true
        ⟨PILMode.other 3 false, 640, 480, []⟩ "2021/05/05 12:34" 400 300 =
      updatePreview ⟨"YY.MM.DD", (255, 255, 255), 16, 50, false⟩ true
        ⟨PILMode.other 3 false, 640, 480, []⟩ "2021/05/05 12:34" 400 300 := by
  exact (c10_format_independent
    ⟨"YYYY/MM/DD HH:MM", (255, 255, 255), 16, 50, false⟩
    ⟨"YY.MM.DD", (255, 255, 255), 16, 50, false⟩ true
    ⟨PILMode.other 3 false, 640, 480, []⟩ "2021/05/05 12:34" 400 300
    rfl rfl rfl rfl).1

end PhotoTimePrinter
